import Mathlib

/-!
# WhisperBot: verification of the ephemeral secret-message store

A shallow embedding of the core logic of `src/wspr.py`: the in-memory
whisper store (`whisper_messages`), its access-control callbacks
(`show_message_callback`, `delete_message_callback`), identifier
generation (`generate_message_id`), the user directory
(`get_user_info`, `store_user_info` over the Mongo `users` collection),
and the inline-query handler `handle_wspr_query`.

Python's mutable global state is embedded as explicit state passing;
`random.randint` and `datetime.now()` are made explicit parameters;
the Mongo collection is a list of documents with first-match query
semantics; the in-memory dict is a finite map `Nat → Option _`.
-/

namespace Wspr

/-- One pending whisper entry. In the source, `whisper_messages[message_id]`
holds the list `[target_user_id, sender_id, message_content]`. -/
structure WhisperEntry where
  targetId : Nat
  senderId : Nat
  messageText : String
  deriving DecidableEq

/-- The in-memory whisper store: the `whisper_messages` dict, as a map
from message id to entry. -/
def Store := Nat → Option WhisperEntry

/-- The empty store (`whisper_messages = {}`). -/
def Store.empty : Store := fun _ => none

/-- Python dict assignment `whisper_messages[id] = e`: stores under `id`,
replacing any entry already present at that key. -/
def insertWhisper (s : Store) (id : Nat) (e : WhisperEntry) : Store :=
  fun k => if k = id then some e else s k

/-- Python `del whisper_messages[id]`. -/
def eraseWhisper (s : Store) (id : Nat) : Store :=
  fun k => if k = id then none else s k

/-- Python `whisper_messages[id]` lookup (and `id in whisper_messages`
membership, via `Option.isSome`). -/
def lookupWhisper (s : Store) (id : Nat) : Option WhisperEntry := s id

/-- Outcome of the "show message" callback, i.e. the alert text answered to
the pressing user: the message body, "This message is not for you.", or
"This message has expired or does not exist.". -/
inductive RevealResult where
  | body (text : String)
  | denied
  | notFound
  deriving DecidableEq

/-- Outcome of the "delete" callback: "Message deleted.",
"Only the sender can delete this message.", or
"This message has already been deleted.". -/
inductive DeleteResult where
  | ok
  | denied
  | notFound
  deriving DecidableEq

/-- `show_message_callback` (src/wspr.py:302-322): if the id is absent,
answer "expired or does not exist"; otherwise show the body exactly when
the presser is the stored target, else "not for you". The store is
returned unchanged on every path, mirroring that the handler never
writes to `whisper_messages`. -/
def show_message_callback (s : Store) (messageId fromUserId : Nat) :
    Store × RevealResult :=
  match lookupWhisper s messageId with
  | none => (s, .notFound)
  | some e =>
    if fromUserId = e.targetId then (s, .body e.messageText)
    else (s, .denied)

/-- `delete_message_callback` (src/wspr.py:324-355): if the id is absent,
answer "already deleted"; otherwise delete exactly when the presser is
the stored sender, else "only the sender can delete". -/
def delete_message_callback (s : Store) (messageId fromUserId : Nat) :
    Store × DeleteResult :=
  match lookupWhisper s messageId with
  | none => (s, .notFound)
  | some e =>
    if fromUserId = e.senderId then (eraseWhisper s messageId, .ok)
    else (s, .denied)

/-- `generate_message_id` (src/wspr.py:69-71): `random.randint(10000000,
999999999)` (both endpoints inclusive), with the random draw made an
explicit parameter `r`; the range has `999999999 - 10000000 + 1 =
990000000` values. -/
def generate_message_id (r : Nat) : Nat := 10000000 + r % 990000000

/-- The registration step of `handle_wspr_query` (src/wspr.py:192-201):
generate an id and store `[target, sender, text]` under it by dict
assignment. Returns the new store and the id. -/
def registerWhisper (s : Store) (r : Nat) (targetId senderId : Nat)
    (text : String) : Store × Nat :=
  let messageId := generate_message_id r
  (insertWhisper s messageId ⟨targetId, senderId, text⟩, messageId)

/-- C1: For every stored pending secret with identifier `id` and recipient
`r`, and every requester `p`: reveal returns the stored body if `p = r`,
Denied (never the body) if `p ≠ r`, and NotFound when nothing is stored
under `id`. -/
theorem reveal_access_control (s : Store) (id p : Nat) :
    (lookupWhisper s id = none →
      show_message_callback s id p = (s, .notFound)) ∧
    (∀ e : WhisperEntry, lookupWhisper s id = some e →
      (p = e.targetId →
        show_message_callback s id p = (s, .body e.messageText)) ∧
      (p ≠ e.targetId →
        show_message_callback s id p = (s, .denied))) := by
  refine ⟨fun h => ?_, fun e he => ⟨fun hp => ?_, fun hp => ?_⟩⟩ <;>
    simp [show_message_callback, *]

/-- Witness for C1: a concrete store exercising all three branches of
`reveal_access_control`. -/
theorem reveal_access_control_witness :
    (show_message_callback
        (insertWhisper Store.empty 10000007 ⟨42, 7, "hi"⟩) 10000007 42
      = (insertWhisper Store.empty 10000007 ⟨42, 7, "hi"⟩, .body "hi")) ∧
    (show_message_callback
        (insertWhisper Store.empty 10000007 ⟨42, 7, "hi"⟩) 10000007 9
      = (insertWhisper Store.empty 10000007 ⟨42, 7, "hi"⟩, .denied)) ∧
    (show_message_callback
        (insertWhisper Store.empty 10000007 ⟨42, 7, "hi"⟩) 10000008 42
      = (insertWhisper Store.empty 10000007 ⟨42, 7, "hi"⟩, .notFound)) := by
  refine ⟨((reveal_access_control
              (insertWhisper Store.empty 10000007 ⟨42, 7, "hi"⟩) 10000007 42).2
            ⟨42, 7, "hi"⟩ rfl).1 rfl,
          ((reveal_access_control
              (insertWhisper Store.empty 10000007 ⟨42, 7, "hi"⟩) 10000007 9).2
            ⟨42, 7, "hi"⟩ rfl).2 (by decide),
          (reveal_access_control
              (insertWhisper Store.empty 10000007 ⟨42, 7, "hi"⟩) 10000008 42).1
            rfl⟩

/-- C2 counterexample: `generate_message_id` performs no collision check,
and the dict assignment in `handle_wspr_query` overwrites on collision.
With id 10000000 already pending and a random draw of 0, `registerWhisper`
returns the already-pending id 10000000 and replaces the old entry. -/
theorem register_collision_counterexample :
    (lookupWhisper (insertWhisper Store.empty 10000000 ⟨1, 2, "old"⟩)
        (registerWhisper (insertWhisper Store.empty 10000000 ⟨1, 2, "old"⟩)
          0 3 4 "new").2).isSome = true ∧
    lookupWhisper
        (registerWhisper (insertWhisper Store.empty 10000000 ⟨1, 2, "old"⟩)
          0 3 4 "new").1 10000000 = some ⟨3, 4, "new"⟩ := by
  exact ⟨rfl, rfl⟩

/-- C2 amended: registration always succeeds, storing the entry under the
returned identifier, which lies in [10000000, 999999999], and leaves every
other key unchanged; the identifier is drawn at random with no collision
check, so a draw equal to a currently pending identifier replaces that
entry (see `register_collision_counterexample`). -/
theorem register_spec (s : Store) (r target sender : Nat) (text : String) :
    10000000 ≤ (registerWhisper s r target sender text).2 ∧
    (registerWhisper s r target sender text).2 ≤ 999999999 ∧
    lookupWhisper (registerWhisper s r target sender text).1
        (registerWhisper s r target sender text).2
      = some ⟨target, sender, text⟩ ∧
    (∀ j, j ≠ (registerWhisper s r target sender text).2 →
      lookupWhisper (registerWhisper s r target sender text).1 j
        = lookupWhisper s j) := by
  have hmod : r % 990000000 < 990000000 := Nat.mod_lt _ (by norm_num)
  refine ⟨by simp [registerWhisper, generate_message_id],
          by simp only [registerWhisper, generate_message_id]; omega,
          by simp [registerWhisper, insertWhisper, lookupWhisper],
          fun j hj => ?_⟩
  simp only [registerWhisper] at hj ⊢
  simp [insertWhisper, lookupWhisper, hj]

/-- Witness for C2's amended theorem `register_spec` at concrete inputs. -/
theorem register_spec_witness :
    lookupWhisper (registerWhisper Store.empty 5 42 7 "hi").1
        (registerWhisper Store.empty 5 42 7 "hi").2 = some ⟨42, 7, "hi"⟩ ∧
    lookupWhisper (registerWhisper Store.empty 5 42 7 "hi").1 3 = none := by
  have h := register_spec Store.empty 5 42 7 "hi"
  exact ⟨h.2.2.1, (h.2.2.2 3 (by decide)).trans rfl⟩

/-- C3: the concrete scenario: registering recipient 42, sender 7, body
"hi" from the empty store (for any random draw `r`) yields an id `I` with
reveal(I,42) = "hi", reveal(I,7) = Denied, delete(I,99) = Denied,
delete(I,7) = Ok, and then reveal(I,42) = NotFound. -/
theorem concrete_scenario (r : Nat) :
    (show_message_callback (registerWhisper Store.empty r 42 7 "hi").1
        (registerWhisper Store.empty r 42 7 "hi").2 42).2 = .body "hi" ∧
    (show_message_callback (registerWhisper Store.empty r 42 7 "hi").1
        (registerWhisper Store.empty r 42 7 "hi").2 7).2 = .denied ∧
    delete_message_callback (registerWhisper Store.empty r 42 7 "hi").1
        (registerWhisper Store.empty r 42 7 "hi").2 99
      = ((registerWhisper Store.empty r 42 7 "hi").1, .denied) ∧
    (delete_message_callback (registerWhisper Store.empty r 42 7 "hi").1
        (registerWhisper Store.empty r 42 7 "hi").2 7).2 = .ok ∧
    (show_message_callback
        (delete_message_callback (registerWhisper Store.empty r 42 7 "hi").1
          (registerWhisper Store.empty r 42 7 "hi").2 7).1
        (registerWhisper Store.empty r 42 7 "hi").2 42).2 = .notFound := by
  refine ⟨?_, ?_, ?_, ?_, ?_⟩ <;>
    simp [registerWhisper, show_message_callback, delete_message_callback,
      insertWhisper, eraseWhisper, lookupWhisper, Store.empty]

/-- Witness for C3's `concrete_scenario` at the random draw 0. -/
theorem concrete_scenario_witness :
    (show_message_callback (registerWhisper Store.empty 0 42 7 "hi").1
        (registerWhisper Store.empty 0 42 7 "hi").2 42).2 = .body "hi" :=
  (concrete_scenario 0).1

/-- C4: deleting a pending entry as its sender removes it and returns Ok
exactly once: an immediately repeated delete returns NotFound, and a
reveal by the recipient after the delete returns NotFound. -/
theorem delete_exactly_once (s : Store) (id : Nat) (e : WhisperEntry)
    (h : lookupWhisper s id = some e) :
    delete_message_callback s id e.senderId = (eraseWhisper s id, .ok) ∧
    delete_message_callback (eraseWhisper s id) id e.senderId
      = (eraseWhisper s id, .notFound) ∧
    show_message_callback (eraseWhisper s id) id e.targetId
      = (eraseWhisper s id, .notFound) := by
  refine ⟨by simp [delete_message_callback, h], ?_, ?_⟩ <;>
    simp [delete_message_callback, show_message_callback,
      eraseWhisper, lookupWhisper]

/-- Witness for C4's `delete_exactly_once` on a concrete store. -/
theorem delete_exactly_once_witness :
    delete_message_callback
        (insertWhisper Store.empty 10000001 ⟨42, 7, "hi"⟩) 10000001 7
      = (eraseWhisper (insertWhisper Store.empty 10000001 ⟨42, 7, "hi"⟩)
          10000001, .ok) :=
  (delete_exactly_once (insertWhisper Store.empty 10000001 ⟨42, 7, "hi"⟩)
    10000001 ⟨42, 7, "hi"⟩ rfl).1

/-- C5: a delete request by anyone other than the stored sender returns
Denied and leaves the entry intact, so a subsequent reveal by the
recipient still returns the original body. -/
theorem delete_denied_preserves (s : Store) (id p : Nat) (e : WhisperEntry)
    (h : lookupWhisper s id = some e) (hp : p ≠ e.senderId) :
    delete_message_callback s id p = (s, .denied) ∧
    show_message_callback s id e.targetId = (s, .body e.messageText) := by
  exact ⟨by simp [delete_message_callback, h, hp],
         by simp [show_message_callback, h]⟩

/-- Witness for C5's `delete_denied_preserves` on a concrete store. -/
theorem delete_denied_preserves_witness :
    delete_message_callback
        (insertWhisper Store.empty 10000002 ⟨42, 7, "hi"⟩) 10000002 99
      = (insertWhisper Store.empty 10000002 ⟨42, 7, "hi"⟩, .denied) :=
  (delete_denied_preserves (insertWhisper Store.empty 10000002 ⟨42, 7, "hi"⟩)
    10000002 99 ⟨42, 7, "hi"⟩ rfl (by decide)).1

/-- C6: reveal never mutates the store: the store after any reveal call
(by any requester) is identical to the store before, iterating reveal any
number of times leaves the store unchanged, and the recipient receives
the stored body unchanged on every such call. -/
theorem reveal_never_mutates (s : Store) (id p : Nat) :
    (show_message_callback s id p).1 = s ∧
    (∀ n, (fun st => (show_message_callback st id p).1)^[n] s = s) ∧
    (∀ e : WhisperEntry, lookupWhisper s id = some e →
      (show_message_callback s id e.targetId).2 = .body e.messageText) := by
  have h1 : (show_message_callback s id p).1 = s := by
    unfold show_message_callback
    cases lookupWhisper s id with
    | none => rfl
    | some e =>
        by_cases hp : p = e.targetId <;> simp [hp]
  refine ⟨h1, fun n => ?_, fun e he => by simp [show_message_callback, he]⟩
  induction n with
  | zero => rfl
  | succ k ih =>
      rw [Function.iterate_succ_apply]
      have hstep : (show_message_callback s id p).1 = s := h1
      rw [hstep, ih]

/-- Witness for C6's `reveal_never_mutates` on a concrete store. -/
theorem reveal_never_mutates_witness :
    (show_message_callback
        (insertWhisper Store.empty 10000003 ⟨42, 7, "hi"⟩) 10000003 42).2
      = .body "hi" :=
  (reveal_never_mutates (insertWhisper Store.empty 10000003 ⟨42, 7, "hi"⟩)
    10000003 42).2.2 ⟨42, 7, "hi"⟩ rfl

/-! ## User Directory: `get_user_info` / `store_user_info` over the Mongo
`users` collection, modelled as a list of documents with first-match
(`find_one`) query semantics. -/

/-- Python `str.isdigit()` on ASCII content: nonempty and every character
a decimal digit. -/
def pyIsDigit (s : String) : Bool := !s.data.isEmpty && s.data.all (·.isDigit)

/-- Python `int` applied to a digit string: its decimal value. -/
def parseDigits (l : List Char) : Nat :=
  l.foldl (fun a c => 10 * a + (c.toNat - 48)) 0

/-- Python `username_or_id[1:]` guarded by `startswith('@')`: strip one
leading `@` marker if present. -/
def stripAtMarker (s : String) : String :=
  match s.data with
  | '@' :: rest => String.mk rest
  | _ => s

/-- A chat-platform user as delivered to the handlers (`types.User`):
identifier, display name, optional last name, optional handle. -/
structure TgUser where
  id : Nat
  first_name : String
  last_name : Option String
  username : Option String
  deriving DecidableEq

/-- A document of the Mongo `users` collection as written by
`store_user_info`; `username = none` models the field being absent. -/
structure UserDoc where
  user_id : Nat
  first_name : String
  last_name : Option String
  username : Option String
  last_seen : Nat
  deriving DecidableEq

/-- `users_collection.find_one({"user_id": n})`: first document with the
given id. -/
def findById (db : List UserDoc) (n : Nat) : Option UserDoc :=
  db.find? (fun d => d.user_id == n)

/-- `users_collection.find_one({"username": u})`: first document whose
`username` field is present and equal to `u`. -/
def findByUsername (db : List UserDoc) (u : String) : Option UserDoc :=
  db.find? (fun d => d.username == some u)

/-- `get_user_info` (src/wspr.py:73-97): digit-only input is converted to
`int` and looked up by `user_id`; any other input has one leading `@`
stripped and is looked up by `username`. Absence is the value `none`,
never an exception. -/
def get_user_info (db : List UserDoc) (q : String) : Option UserDoc :=
  if pyIsDigit q then findById db (parseDigits q.data)
  else findByUsername db (stripAtMarker q)

/-- The effect of the `$set` update document built by `store_user_info` on
an existing document with the same `user_id`: every field named in the
update is replaced; `username` is named only when the user has one, so an
absent handle leaves the stored handle untouched (Mongo `$set` semantics). -/
def applyUserData (d : UserDoc) (u : TgUser) (now : Nat) : UserDoc :=
  { user_id := u.id, first_name := u.first_name, last_name := u.last_name,
    last_seen := now,
    username := match u.username with
                | some h => some h
                | none => d.username }

/-- The document created by the `upsert=True` branch when no document
matches the filter `{"user_id": u.id}`. -/
def freshUserDoc (u : TgUser) (now : Nat) : UserDoc :=
  { user_id := u.id, first_name := u.first_name, last_name := u.last_name,
    last_seen := now, username := u.username }

/-- `store_user_info` (src/wspr.py:99-128):
`update_one({"user_id": u.id}, {"$set": user_data}, upsert=True)` — update
the first matching document in place, or append a fresh one. `datetime.now()`
is the explicit parameter `now`. (The in-memory caches the source also
refreshes are written but never read by any handler, and are omitted.) -/
def store_user_info (db : List UserDoc) (u : TgUser) (now : Nat) :
    List UserDoc :=
  match db with
  | [] => [freshUserDoc u now]
  | d :: ds =>
      if d.user_id = u.id then applyUserData d u now :: ds
      else d :: store_user_info ds u now

/-- C7 counterexample: with a stored principal of id 123 (and no handle
"123"), the claim says `resolve("@123")` resolves by the numeric id and
returns that principal; the code checks `isdigit()` before stripping the
marker, so "@123" is looked up as the handle "123" and nothing is found. -/
theorem resolve_marker_digits_counterexample :
    get_user_info [⟨123, "Bob", none, none, 0⟩] "@123" = none ∧
    findById [⟨123, "Bob", none, none, 0⟩] 123
      = some ⟨123, "Bob", none, none, 0⟩ := by
  exact ⟨rfl, rfl⟩

/-- C7 amended: digit-only input is looked up as a numeric identifier;
any other input — in particular anything starting with the '@' marker,
even '@' followed by digits — has one leading '@' stripped and is looked
up as a textual handle; '@t' and 't' therefore resolve identically for
non-numeric 't'; unknown input yields `none` (the `find_one` miss),
never an exception. -/
theorem resolve_spec (db : List UserDoc) :
    (∀ s : String, pyIsDigit s = true →
      get_user_info db s = findById db (parseDigits s.data)) ∧
    (∀ t : String, get_user_info db ("@" ++ t) = findByUsername db t) ∧
    (∀ s : String, pyIsDigit s = false → s.data.head? ≠ some '@' →
      get_user_info db s = findByUsername db s) ∧
    (∀ t : String, pyIsDigit t = false → t.data.head? ≠ some '@' →
      get_user_info db ("@" ++ t) = get_user_info db t) := by
  have hdata : ∀ t : String, ("@" ++ t).data = '@' :: t.data := by
    intro t; simp [String.data_append]
  have hdig : ∀ t : String, pyIsDigit ("@" ++ t) = false := by
    intro t; simp [pyIsDigit, hdata t]
  have hstrip : ∀ t : String, stripAtMarker ("@" ++ t) = t := by
    intro t
    unfold stripAtMarker
    rw [hdata t]
    cases t with
    | mk l => rfl
  have hstrip2 : ∀ s : String, s.data.head? ≠ some '@' →
      stripAtMarker s = s := by
    intro s hs
    unfold stripAtMarker
    split
    · rename_i rest heq
      exact absurd (by rw [heq]; rfl) hs
    · rfl
  refine ⟨fun s hs => by simp [get_user_info, hs],
          fun t => by simp [get_user_info, hdig t, hstrip t],
          fun s hs hh => by simp [get_user_info, hs, hstrip2 s hh],
          fun t ht hh => by
            simp [get_user_info, hdig t, hstrip t, ht, hstrip2 t hh]⟩

/-- Witness for C7's amended `resolve_spec`: id lookup, marker stripping,
plain-handle lookup and the miss case, on a concrete directory. -/
theorem resolve_spec_witness :
    get_user_info [⟨123, "Bob", none, some "alice", 5⟩] "123"
      = some ⟨123, "Bob", none, some "alice", 5⟩ ∧
    get_user_info [⟨123, "Bob", none, some "alice", 5⟩] "@alice"
      = some ⟨123, "Bob", none, some "alice", 5⟩ ∧
    get_user_info [⟨123, "Bob", none, some "alice", 5⟩] "alice"
      = some ⟨123, "Bob", none, some "alice", 5⟩ ∧
    get_user_info [⟨123, "Bob", none, some "alice", 5⟩] "nobody" = none := by
  have h := resolve_spec [⟨123, "Bob", none, some "alice", 5⟩]
  refine ⟨(h.1 "123" (by decide)).trans rfl, ?_, ?_, ?_⟩
  · exact (h.2.1 "alice").trans rfl
  · exact (h.2.2.1 "alice" (by decide) (by decide)).trans rfl
  · exact (h.2.2.1 "nobody" (by decide) (by decide)).trans rfl

/-- Re-applying the `$set` document of the same user to an already
updated document changes nothing. -/
lemma applyUserData_idem (d : UserDoc) (u : TgUser) (now : Nat) :
    applyUserData (applyUserData d u now) u now = applyUserData d u now := by
  cases h : u.username <;> simp [applyUserData, h]

/-- Applying the `$set` document of `u` to the document freshly inserted
for `u` changes nothing. -/
lemma applyUserData_fresh (u : TgUser) (now : Nat) :
    applyUserData (freshUserDoc u now) u now = freshUserDoc u now := by
  cases h : u.username <;> simp [applyUserData, freshUserDoc, h]

/-- The updated document keeps the user's id, so the `user_id` filter
still matches it. -/
lemma applyUserData_user_id (d : UserDoc) (u : TgUser) (now : Nat) :
    (applyUserData d u now).user_id = u.id := rfl

/-- C8 counterexample: upserting a user who has dropped their handle does
not remove the stored handle: `$set` only writes the fields it names.
After storing user 1 with handle "alice" and then storing the same user
with no handle, the stored document still carries `username = "alice"`,
where the claim requires the field to be absent. -/
theorem upsert_retains_dropped_handle_counterexample :
    store_user_info (store_user_info [] ⟨1, "A", none, some "alice"⟩ 10)
        ⟨1, "A", none, none⟩ 20
      = [⟨1, "A", none, some "alice", 20⟩] ∧
    (some "alice" : Option String) ≠ none := by
  exact ⟨rfl, by decide⟩

/-- C8 amended: upsert is an idempotent merge-update keyed by the
principal's identifier: upserting the same principal twice (at the same
observation time) equals upserting it once; afterwards the document found
under the principal's id is exactly the previous document with the
update's fields replaced (`applyUserData`), or a fresh document when none
existed (`freshUserDoc`); a handle present in the update is stored, but a
handle absent from the update is retained from the previous document
rather than removed. -/
theorem upsert_spec (db : List UserDoc) (u : TgUser) (now : Nat) :
    store_user_info (store_user_info db u now) u now
      = store_user_info db u now ∧
    findById (store_user_info db u now) u.id
      = some ((findById db u.id).elim (freshUserDoc u now)
          (fun d => applyUserData d u now)) ∧
    (∀ h, u.username = some h →
      ((findById db u.id).elim (freshUserDoc u now)
          (fun d => applyUserData d u now)).username = some h) := by
  refine ⟨?_, ?_, fun h hh => ?_⟩
  · induction db with
    | nil =>
        have hid : (freshUserDoc u now).user_id = u.id := rfl
        simp [store_user_info, hid, applyUserData_fresh]
    | cons d ds ih =>
        by_cases hd : d.user_id = u.id
        · simp [store_user_info, hd, applyUserData_user_id,
            applyUserData_idem]
        · simp [store_user_info, hd, ih]
  · induction db with
    | nil =>
        simp [store_user_info, findById, freshUserDoc]
    | cons d ds ih =>
        by_cases hd : d.user_id = u.id
        · simp [store_user_info, hd, findById, List.find?_cons_of_pos,
            applyUserData_user_id]
        · have hne : (d.user_id == u.id) = false := by
            simp [hd]
          simp [store_user_info, hd, findById, List.find?_cons, hne] at ih ⊢
          exact ih
  · cases hdb : findById db u.id with
    | none => simp [freshUserDoc, hh]
    | some d => simp [applyUserData, hh]

/-- Witness for C8's amended `upsert_spec`: a concrete upsert into a
directory already holding the principal. -/
theorem upsert_spec_witness :
    store_user_info
        (store_user_info [(⟨1, "Old", none, some "alice", 3⟩ : UserDoc)]
          ⟨1, "A", none, none⟩ 20)
        ⟨1, "A", none, none⟩ 20
      = store_user_info [(⟨1, "Old", none, some "alice", 3⟩ : UserDoc)]
          ⟨1, "A", none, none⟩ 20 ∧
    findById
        (store_user_info [(⟨1, "Old", none, some "alice", 3⟩ : UserDoc)]
          ⟨1, "A", none, none⟩ 20) 1
      = some ⟨1, "A", none, some "alice", 20⟩ := by
  have h := upsert_spec [(⟨1, "Old", none, some "alice", 3⟩ : UserDoc)]
    ⟨1, "A", none, none⟩ 20
  exact ⟨h.1, h.2.1.trans rfl⟩

/-! ## Callback tokens: `f"show_{id}"` / `f"del_{id}"` and the callback
patterns `^show_(\d+)$` / `^del_(\d+)$` with `int(...)` extraction. -/

/-- Python `str(n)` / f-string interpolation of an int: its decimal digit
characters, most significant first. -/
def natDigitChars (n : Nat) : List Char :=
  if n = 0 then ['0']
  else ((Nat.digits 10 n).reverse).map (fun d => Char.ofNat (48 + d))

/-- The callback payload `f"show_{id}"` attached to the reveal button. -/
def showCallbackData (id : Nat) : List Char := "show_".data ++ natDigitChars id

/-- The callback payload `f"del_{id}"` attached to the delete button. -/
def delCallbackData (id : Nat) : List Char := "del_".data ++ natDigitChars id

/-- The anchored callback pattern `^<pre>(\d+)$` followed by
`int(matches[0].group(1))`: when the payload is the literal prefix
followed by one or more digits, return their decimal value. -/
def matchTokenNum (pre : List Char) (data : List Char) : Option Nat :=
  if data.take pre.length = pre then
    let rest := data.drop pre.length
    if !rest.isEmpty && rest.all (·.isDigit) then some (parseDigits rest)
    else none
  else none

lemma toNat_digitChar (d : Nat) (hd : d < 10) :
    (Char.ofNat (48 + d)).toNat = 48 + d := by
  interval_cases d <;> rfl

lemma isDigit_digitChar (d : Nat) (hd : d < 10) :
    (Char.ofNat (48 + d)).isDigit = true := by
  interval_cases d <;> rfl

lemma foldl_digitChars (L : List Nat) (a : Nat) (hL : ∀ d ∈ L, d < 10) :
    (L.reverse.map (fun d => Char.ofNat (48 + d))).foldl
        (fun acc c => 10 * acc + (c.toNat - 48)) a
      = a * 10 ^ L.length + Nat.ofDigits 10 L := by
  induction L generalizing a with
  | nil => simp
  | cons d tl ih =>
      have hd : d < 10 := hL d (List.mem_cons_self d tl)
      have htl : ∀ x ∈ tl, x < 10 := fun x hx => hL x (List.mem_cons_of_mem d hx)
      have hrev : (d :: tl).reverse = tl.reverse ++ [d] := by simp
      rw [hrev, List.map_append, List.foldl_append, ih a htl]
      simp only [List.map_cons, List.map_nil, List.foldl_cons, List.foldl_nil,
        toNat_digitChar d hd, Nat.ofDigits_cons, List.length_cons]
      have : 48 + d - 48 = d := by omega
      rw [this, pow_succ]
      ring

/-- Parsing the decimal rendering of `n` recovers `n`. -/
lemma parseDigits_natDigitChars (n : Nat) :
    parseDigits (natDigitChars n) = n := by
  by_cases h : n = 0
  · subst h; rfl
  · unfold natDigitChars parseDigits
    rw [if_neg h,
      foldl_digitChars (Nat.digits 10 n) 0
        (fun d hd => Nat.digits_lt_base (by norm_num) hd)]
    simp [Nat.ofDigits_digits]

lemma natDigitChars_all_digits (n : Nat) :
    (natDigitChars n).all (·.isDigit) = true := by
  by_cases h : n = 0
  · subst h; rfl
  · unfold natDigitChars
    rw [if_neg h, List.all_eq_true]
    intro c hc
    rcases List.mem_map.mp hc with ⟨d, hdmem, rfl⟩
    exact isDigit_digitChar d
      (Nat.digits_lt_base (by norm_num) (List.mem_reverse.mp hdmem))

lemma natDigitChars_ne_nil (n : Nat) : natDigitChars n ≠ [] := by
  by_cases h : n = 0
  · subst h; simp [natDigitChars]
  · unfold natDigitChars
    rw [if_neg h]
    simp [Nat.digits_ne_nil_iff_ne_zero.mpr h]

/-- The anchored pattern applied to `<pre> ++ digits-of n` matches and
the extracted group parses back to `n`. -/
lemma matchTokenNum_encode (pre : List Char) (n : Nat) :
    matchTokenNum pre (pre ++ natDigitChars n) = some n := by
  unfold matchTokenNum
  rw [List.take_left, List.drop_left, if_pos rfl]
  have hne : (natDigitChars n).isEmpty = false := by
    cases h : natDigitChars n with
    | nil => exact absurd h (natDigitChars_ne_nil n)
    | cons c cs => rfl
  rw [if_pos (by simp [hne, natDigitChars_all_digits n])]
  simp [parseDigits_natDigitChars n]

/-- C10: every identifier the generator can produce lies in
[10000000, 999999999], and identifiers round-trip through the action
tokens: the payloads `show_<id>` and `del_<id>` are matched by the
callback patterns and parsing the matched digits recovers exactly the
identifier. -/
theorem message_id_token_roundtrip (r : Nat) :
    10000000 ≤ generate_message_id r ∧
    generate_message_id r ≤ 999999999 ∧
    matchTokenNum "show_".data (showCallbackData (generate_message_id r))
      = some (generate_message_id r) ∧
    matchTokenNum "del_".data (delCallbackData (generate_message_id r))
      = some (generate_message_id r) := by
  have hmod : r % 990000000 < 990000000 := Nat.mod_lt _ (by norm_num)
  exact ⟨by simp [generate_message_id],
         by simp only [generate_message_id]; omega,
         matchTokenNum_encode "show_".data _,
         matchTokenNum_encode "del_".data _⟩

/-- Witness for C10's `message_id_token_roundtrip` at the random draw 0. -/
theorem message_id_token_roundtrip_witness :
    matchTokenNum "show_".data (showCallbackData (generate_message_id 0))
      = some (generate_message_id 0) :=
  (message_id_token_roundtrip 0).2.2.1

/-! ## The whisper-compose inline-query handler `handle_wspr_query`. -/

/-- Python `s.split(maxsplit=1)` (whitespace mode), structured: `none`
when `s` is empty or all whitespace (the list form `[]`), otherwise
`some (tok, rest)` where `tok` is the first whitespace-free run and
`rest` is the remainder after the separating whitespace run (possibly
`[]`, the list form `[tok]`; trailing content is kept verbatim). -/
def pySplit1 (s : List Char) : Option (List Char × List Char) :=
  let s1 := s.dropWhile (·.isWhitespace)
  if s1.isEmpty then none
  else some (s1.takeWhile (fun c => !c.isWhitespace),
    (s1.dropWhile (fun c => !c.isWhitespace)).dropWhile (·.isWhitespace))

/-- The single candidate answer card produced by `handle_wspr_query`:
one of the three descriptive error articles, or the whisper article
carrying the two callback action tokens and the compose-again inline
token. (Pure presentation text inside the article is not tracked.) -/
inductive Card where
  | giveUsername
  | userNotFound
  | typeMessage
  | whisper (title : String) (description : String)
      (showToken delToken : List Char) (composeAgain : List Char)
  deriving DecidableEq

/-- `handle_wspr_query` (src/wspr.py:131-223): store the sender's
profile, split the query; with no target answer the "Give Username"
card; with an unresolvable target answer "User Not Found"; with no
message text answer "Type your message"; otherwise generate an id,
store `[target_user_id, sender_id, message_text]` in the whisper dict,
and answer the whisper card with `show_`/`del_` callback tokens and the
`wspr <target> ` compose-again token. Returns the updated users
collection, the updated whisper store, and the answered cards. -/
def handle_wspr_query (db : List UserDoc) (s : Store) (fromUser : TgUser)
    (query : String) (now r : Nat) :
    List UserDoc × Store × List Card :=
  let db' := store_user_info db fromUser now
  match pySplit1 query.data with
  | none => (db', s, [Card.giveUsername])
  | some (_, rest1) =>
    if rest1.isEmpty then (db', s, [Card.giveUsername])
    else
      let target := rest1.takeWhile (fun c => !c.isWhitespace)
      let rest2 :=
        (rest1.dropWhile (fun c => !c.isWhitespace)).dropWhile
          (·.isWhitespace)
      match get_user_info db' (String.mk target) with
      | none => (db', s, [Card.userNotFound])
      | some userInfo =>
        if rest2.isEmpty then (db', s, [Card.typeMessage])
        else
          let messageId := generate_message_id r
          (db',
           insertWhisper s messageId
             ⟨userInfo.user_id, fromUser.id, String.mk rest2⟩,
           [Card.whisper userInfo.first_name (String.mk rest2)
             (showCallbackData messageId) (delCallbackData messageId)
             ("wspr ".data ++ target ++ [' '])])

/-- Modelled from the spec's words (§4.3): a whisper-compose query is
complete exactly when it carries a target that resolves in the directory
and a non-empty message body after the target. -/
def specComposeComplete (db' : List UserDoc) (query : String) : Bool :=
  match pySplit1 query.data with
  | none => false
  | some (_, rest1) =>
    match pySplit1 rest1 with
    | none => false
    | some (target, rest2) =>
        (get_user_info db' (String.mk target)).isSome && !rest2.isEmpty

lemma dropWhile_dropWhile (p : Char → Bool) (l : List Char) :
    (l.dropWhile p).dropWhile p = l.dropWhile p := by
  induction l with
  | nil => rfl
  | cons c cs ih =>
      by_cases hc : p c
      · simpa [List.dropWhile_cons, hc] using ih
      · simp [List.dropWhile_cons, hc]

lemma pySplit1_rest_nodrop (s t r : List Char)
    (h : pySplit1 s = some (t, r)) :
    r.dropWhile (·.isWhitespace) = r := by
  unfold pySplit1 at h
  by_cases h1 : (s.dropWhile (·.isWhitespace)).isEmpty
  · rw [if_pos h1] at h
    cases h
  · rw [if_neg h1] at h
    have h2 : List.dropWhile (fun x => x.isWhitespace)
        (List.dropWhile (fun c => !c.isWhitespace)
          (List.dropWhile (fun x => x.isWhitespace) s)) = r :=
      (Prod.ext_iff.mp (Option.some.inj h)).2
    rw [← h2]
    exact dropWhile_dropWhile _ _

lemma pySplit1_of_nodrop (r : List Char) (hne : r.isEmpty = false)
    (hnd : r.dropWhile (·.isWhitespace) = r) :
    pySplit1 r = some (r.takeWhile (fun c => !c.isWhitespace),
      (r.dropWhile (fun c => !c.isWhitespace)).dropWhile
        (·.isWhitespace)) := by
  unfold pySplit1
  rw [hnd, if_neg (by simp [hne])]

/-- C9: every whisper-compose inline query produces exactly one candidate
card (the model is a total function, so no path raises); when the query
is incomplete — no target, unresolvable target, or missing body — the
store is untouched and the single card is one of the descriptive error
cards, never a whisper card; and when the target resolves and the body is
non-empty, the handler registers the message and answers the whisper card
carrying the reveal and delete action tokens and the compose-again token. -/
theorem wspr_query_single_response (db : List UserDoc) (s : Store)
    (fromUser : TgUser) (query : String) (now r : Nat) :
    (handle_wspr_query db s fromUser query now r).2.2.length = 1 ∧
    (specComposeComplete (store_user_info db fromUser now) query = false →
      (handle_wspr_query db s fromUser query now r).2.1 = s ∧
      ∀ t d st dt ca, Card.whisper t d st dt ca ∉
        (handle_wspr_query db s fromUser query now r).2.2) ∧
    (specComposeComplete (store_user_info db fromUser now) query = true →
      ∃ info : UserDoc, ∃ body target : List Char,
        (handle_wspr_query db s fromUser query now r).2.1
          = insertWhisper s (generate_message_id r)
              ⟨info.user_id, fromUser.id, String.mk body⟩ ∧
        (handle_wspr_query db s fromUser query now r).2.2
          = [Card.whisper info.first_name (String.mk body)
              (showCallbackData (generate_message_id r))
              (delCallbackData (generate_message_id r))
              ("wspr ".data ++ target ++ [' '])] ∧
        get_user_info (store_user_info db fromUser now) (String.mk target)
          = some info ∧ body ≠ []) := by
  unfold handle_wspr_query specComposeComplete
  cases hq : pySplit1 query.data with
  | none => simp
  | some pr =>
      obtain ⟨tok, rest1⟩ := pr
      by_cases h1 : rest1.isEmpty
      · have hr : rest1 = [] := by
          cases rest1 with
          | nil => rfl
          | cons c cs => simp at h1
        subst hr
        simp [pySplit1]
      · have hnd := pySplit1_rest_nodrop query.data tok rest1 hq
        have hne : rest1.isEmpty = false := by
          cases h : rest1.isEmpty with
          | false => rfl
          | true => exact absurd h h1
        dsimp only
        rw [pySplit1_of_nodrop rest1 hne hnd]
        cases hu : get_user_info (store_user_info db fromUser now)
            (String.mk (rest1.takeWhile (fun c => !c.isWhitespace))) with
        | none => simp [h1, hu]
        | some info =>
            by_cases h2 : ((rest1.dropWhile (fun c => !c.isWhitespace)).dropWhile
                (·.isWhitespace)).isEmpty
            · simp [h1, hu, h2]
            · have h2' : ((rest1.dropWhile (fun c => !c.isWhitespace)).dropWhile
                  (·.isWhitespace)) ≠ [] := by
                intro hnil
                rw [hnil] at h2
                exact h2 rfl
              simp only [h1, hu, h2, Bool.not_eq_true, if_neg, if_false]
              refine ⟨by simp [h2], by simp [h2], fun htrue => ?_⟩
              exact ⟨info,
                (rest1.dropWhile (fun c => !c.isWhitespace)).dropWhile
                  (·.isWhitespace),
                rest1.takeWhile (fun c => !c.isWhitespace),
                by simp [h2], by simp [h2], hu, h2'⟩

/-- Witness for C9's `wspr_query_single_response`: a complete compose
query and an unresolvable-target query, on concrete state. -/
theorem wspr_query_single_response_witness :
    (handle_wspr_query [] Store.empty ⟨7, "S", none, none⟩
        "wspr 7 hi" 5 0).2.2.length = 1 ∧
    (handle_wspr_query [] Store.empty ⟨7, "S", none, none⟩
        "wspr @x hi" 5 0).2.1 = Store.empty :=
  ⟨(wspr_query_single_response [] Store.empty ⟨7, "S", none, none⟩
      "wspr 7 hi" 5 0).1,
   ((wspr_query_single_response [] Store.empty ⟨7, "S", none, none⟩
      "wspr @x hi" 5 0).2.1 (by decide)).1⟩

end Wspr
